import Mathlib

set_option maxRecDepth 8000

namespace ImageOptimizer

deriving instance DecidableEq for Except

/-- A query-string parameter value as produced by Node's `url.parse` with
query parsing on: absent, a single string, or an array of strings
(repeated parameter). -/
inductive QueryVal where
  | missing : QueryVal
  | str (s : String) : QueryVal
  | arr (l : List String) : QueryVal
deriving DecidableEq, Repr

/-- JS whitespace skipped by `parseInt`. -/
def isJsSpace (c : Char) : Bool :=
  c = ' ' || c = '\t' || c = '\n' || c = '\r'

/-- Value of a decimal digit character. -/
def digitVal (c : Char) : Option Nat :=
  if '0' ≤ c ∧ c ≤ '9' then some (c.toNat - 48) else none

/-- Value of a hexadecimal digit character. -/
def hexVal (c : Char) : Option Nat :=
  if '0' ≤ c ∧ c ≤ '9' then some (c.toNat - 48)
  else if 'a' ≤ c ∧ c ≤ 'f' then some (c.toNat - 87)
  else if 'A' ≤ c ∧ c ≤ 'F' then some (c.toNat - 55)
  else none

/-- Accumulate leading digits; `none` when no digit was consumed at all
(JS `NaN`). Parsing stops at the first non-digit, as `parseInt` does. -/
def parseDigits (base : Nat) (val : Char → Option Nat) :
    List Char → Option Nat → Option Nat
  | [], acc => acc
  | c :: cs, acc =>
    match val c with
    | none => acc
    | some d => parseDigits base val cs (some (acc.getD 0 * base + d))

/-- Model of JavaScript `parseInt(s)` with no radix argument (an external
runtime builtin): skip leading whitespace, optional sign, auto-detect a
`0x`/`0X` hexadecimal prefix, read leading digits, `none` for `NaN`. -/
def jsParseInt (s : String) : Option Int :=
  let cs := s.data.dropWhile isJsSpace
  let signed : Bool × List Char :=
    match cs with
    | '-' :: rest => (true, rest)
    | '+' :: rest => (false, rest)
    | rest => (false, rest)
  let mag : Option Nat :=
    match signed.2 with
    | '0' :: 'x' :: rest => parseDigits 16 hexVal rest none
    | '0' :: 'X' :: rest => parseDigits 16 hexVal rest none
    | rest => parseDigits 10 digitVal rest none
  mag.map (fun n => if signed.1 then -(n : Int) else (n : Int))

/-- The components of a parsed WHATWG URL that the optimizer consumes. -/
structure ParsedURL where
  scheme : String
  hostname : String
  path : String
deriving DecidableEq, Repr

/-- `URL#href` serialization for the URLs modelled here (empty path prints
as a single slash, as the WHATWG serializer does). -/
def ParsedURL.href (u : ParsedURL) : String :=
  u.scheme ++ "://" ++ u.hostname ++ u.path

/-- Models `new URL(s)` — a JS builtin external to the repository —
restricted to the http/https URLs this development exercises: the input
parses as absolute exactly when it starts with an http or https scheme
followed by a non-empty host; the hostname is the authority up to the
first slash (ports and userinfo are not modelled; no input here uses
them). Any other input throws, i.e. returns `none`. -/
def parseURL (s : String) : Option ParsedURL :=
  let cs := s.data
  let schemeRest : Option (String × List Char) :=
    if "https://".data.isPrefixOf cs then some ("https", cs.drop 8)
    else if "http://".data.isPrefixOf cs then some ("http", cs.drop 7)
    else none
  match schemeRest with
  | none => none
  | some (scheme, rest) =>
    let host := rest.takeWhile (fun c => c ≠ '/')
    let path := rest.drop host.length
    if host = [] then none
    else some { scheme := scheme, hostname := String.mk host,
                path := if path = [] then "/" else String.mk path }

/-- Models `new URL(url, "https://" ++ host)` for a `url` that failed to
parse as absolute: the WHATWG parser resolves it against the https base,
so the hostname comes from the base. It throws (`none`) when the base is
itself invalid (empty host or host containing a slash or space) or when
the url carries an http(s) scheme with an empty authority. Restricted to
the path-style relative references exercised here (protocol-relative and
dot-segment references are not modelled; no input here uses them). -/
def resolveRelative (url : String) (host : String) : Option ParsedURL :=
  if host = "" ∨ host.data.contains '/' ∨ host.data.contains ' ' then none
  else if "http://".data.isPrefixOf url.data ∨ "https://".data.isPrefixOf url.data then none
  else some { scheme := "https", hostname := host,
              path := if "/".data.isPrefixOf url.data then url else "/" ++ url }

def msgUrlRequired : String := "\"url\" parameter is required"
def msgUrlArray : String := "\"url\" parameter cannot be an array"
def msgUrlNotAllowed : String := "\"url\" parameter is not allowed"
def msgUrlInvalid : String := "\"url\" parameter is invalid"
def msgWRequired : String := "\"w\" parameter (width) is required"
def msgWArray : String := "\"w\" parameter (width) cannot be an array"
def msgWInvalid : String := "\"w\" parameter (width) must be a number greater than 0"
def msgQRequired : String := "\"q\" parameter (quality) is required"
def msgQArray : String := "\"q\" parameter (quality) cannot be an array"
def msgQInvalid : String := "\"q\" parameter (quality) must be a number between 1 and 100"

/-- `"w" parameter (width) of N is not allowed` with the parsed width
interpolated, as in the source template literal. -/
def msgWNotAllowed (width : Int) : String :=
  "\"w\" parameter (width) of " ++ toString width ++ " is not allowed"

/-- The data the handler carries past validation. -/
structure Validated where
  url : String
  w : String
  q : String
  absoluteUrl : ParsedURL
  width : Int
  quality : Int
deriving DecidableEq, Repr

/-- Presence and arity check shared by the three parameters: in JS an
absent parameter is `undefined` and an empty string is falsy, so
`if (!p)` catches both and yields the `required` message; the following
`Array.isArray(p)` test yields the `array` message. -/
def checkParam (required arrayMsg : String) (v : QueryVal) :
    Except String String :=
  match v with
  | .missing => .error required
  | .arr _ => .error arrayMsg
  | .str s => if s = "" then .error required else .ok s

/-- The url block of the source: presence and arity, then `new URL(url)`;
on success the domain allow-list check (`Array.isArray(domains) &&
domains.length > 0 && !domains.includes(hostname)`) — performed only on
this branch — and on parse failure the relative retry against
`https://` ++ host, whose own failure is the `invalid` rejection. Returns
the raw url string together with the absolute URL. -/
def checkUrl (domains : List String) (url : QueryVal) (host : Option String) :
    Except String (String × ParsedURL) :=
  match checkParam msgUrlRequired msgUrlArray url with
  | .error e => .error e
  | .ok urlStr =>
    match parseURL urlStr with
    | some u =>
      if domains ≠ [] ∧ u.hostname ∉ domains then .error msgUrlNotAllowed
      else .ok (urlStr, u)
    | none =>
      match resolveRelative urlStr (host.getD "undefined") with
      | some u => .ok (urlStr, u)
      | none => .error msgUrlInvalid

/-- The width block of the source: `const width = parseInt(w)` followed by
`if (!width || isNaN(width))` — which rejects exactly `NaN` and `0`, a
negative parse being neither falsy nor `NaN` — and then the allow-list
test `Array.isArray(sizes) && sizes.length > 0 && !sizes.includes(width)`. -/
def checkWidth (sizes : List Int) (wStr : String) : Except String Int :=
  match jsParseInt wStr with
  | none => .error msgWInvalid
  | some width =>
    if width = 0 then .error msgWInvalid
    else if sizes ≠ [] ∧ width ∉ sizes then .error (msgWNotAllowed width)
    else .ok width

/-- The quality block of the source: `const quality = parseInt(q)` and
`if (isNaN(quality) || quality < 1 || quality > 100)`. -/
def checkQuality (qStr : String) : Except String Int :=
  match jsParseInt qStr with
  | none => .error msgQInvalid
  | some quality =>
    if quality < 1 ∨ quality > 100 then .error msgQInvalid
    else .ok quality

/-- The validation prefix of `imageOptimizer`, in the exact order of the
source's checks: url presence, url arity, URL parse and domain check, w
presence, w arity, q presence, q arity, width numeric parse, width
allow-list, quality numeric parse and bounds. Note the source checks q's
presence and arity before it parses w numerically. -/
def validate (sizes : List Int) (domains : List String)
    (url w q : QueryVal) (host : Option String) : Except String Validated :=
  match checkUrl domains url host with
  | .error e => .error e
  | .ok (urlStr, absoluteUrl) =>
    match checkParam msgWRequired msgWArray w with
    | .error e => .error e
    | .ok wStr =>
      match checkParam msgQRequired msgQArray q with
      | .error e => .error e
      | .ok qStr =>
        match checkWidth sizes wStr with
        | .error e => .error e
        | .ok width =>
          match checkQuality qStr with
          | .error e => .error e
          | .ok quality =>
            .ok { url := urlStr, w := wStr, q := qStr,
                  absoluteUrl := absoluteUrl,
                  width := width, quality := quality }

def WEBP : String := "image/webp"
def AVIF : String := "image/avif"

/-- The byte string fed to the SHA-256 hash: the source performs four
`hash.update` calls on `url`, `w`, `q`, `mediaType`, which hash the
concatenation of those strings with no separators. -/
def hashInput (url w q mediaType : String) : String :=
  url ++ w ++ q ++ mediaType

/-- Truncation to a 32-bit word. -/
def w32 (x : Nat) : Nat := x % 4294967296

/-- 32-bit rotate right. -/
def rotr (n x : Nat) : Nat := w32 ((x >>> n) ||| (x <<< (32 - n)))

/-- Upper-case sigma functions of the SHA-256 compression round. -/
def bigSig0 (x : Nat) : Nat := rotr 2 x ^^^ (rotr 13 x ^^^ rotr 22 x)

def bigSig1 (x : Nat) : Nat := rotr 6 x ^^^ (rotr 11 x ^^^ rotr 25 x)

/-- Lower-case sigma functions of the SHA-256 message schedule. -/
def smallSig0 (x : Nat) : Nat := rotr 7 x ^^^ (rotr 18 x ^^^ (x >>> 3))

def smallSig1 (x : Nat) : Nat := rotr 17 x ^^^ (rotr 19 x ^^^ (x >>> 10))

/-- The 64 SHA-256 round constants of FIPS 180-4, written in decimal. -/
def sha256K : List Nat :=
  [1116352408, 1899447441, 3049323471, 3921009573, 961987163,
   1508970993, 2453635748, 2870763221, 3624381080, 310598401,
   607225278, 1426881987, 1925078388, 2162078206, 2614888103,
   3248222580, 3835390401, 4022224774, 264347078, 604807628,
   770255983, 1249150122, 1555081692, 1996064986, 2554220882,
   2821834349, 2952996808, 3210313671, 3336571891, 3584528711,
   113926993, 338241895, 666307205, 773529912, 1294757372,
   1396182291, 1695183700, 1986661051, 2177026350, 2456956037,
   2730485921, 2820302411, 3259730800, 3345764771, 3516065817,
   3600352804, 4094571909, 275423344, 430227734, 506948616,
   659060556, 883997877, 958139571, 1322822218, 1537002063,
   1747873779, 1955562222, 2024104815, 2227730452, 2361852424,
   2428436474, 2756734187, 3204031479, 3329325298]

/-- `n` big-endian bytes of `x`. -/
def beBytes : Nat → Nat → List Nat
  | 0, _ => []
  | n + 1, x => beBytes n (x / 256) ++ [x % 256]

/-- SHA-256 padding: a 0x80 byte, zeros to 56 mod 64, then the bit length
as 8 big-endian bytes. -/
def padMessage (msg : List Nat) : List Nat :=
  let len := msg.length
  let zeros := (64 - (len + 9) % 64) % 64
  msg ++ [128] ++ List.replicate zeros 0 ++ beBytes 8 (8 * len)

/-- Big-endian 32-bit words from bytes. -/
def bytesToWords : List Nat → List Nat
  | a :: b :: c :: d :: rest =>
    (((a * 256 + b) * 256 + c) * 256 + d) :: bytesToWords rest
  | _ => []

/-- Split a byte list into 64-byte blocks; the fuel argument (instantiated
with the list length) keeps the recursion structural. -/
def chunks64F : Nat → List Nat → List (List Nat)
  | 0, _ => []
  | _, [] => []
  | fuel + 1, a :: l => (a :: l.take 63) :: chunks64F fuel (l.drop 63)

/-- Split a byte list into 64-byte blocks. -/
def chunks64 (l : List Nat) : List (List Nat) := chunks64F l.length l

/-- Extend the 16 words of a block to the 64-word message schedule. -/
def extendWords (ws : List Nat) : List Nat :=
  (List.range 48).foldl
    (fun acc i =>
      acc ++ [w32 (acc.getD i 0 + smallSig0 (acc.getD (i + 1) 0) +
                   acc.getD (i + 9) 0 + smallSig1 (acc.getD (i + 14) 0))])
    ws

/-- The eight 32-bit working variables of SHA-256. -/
structure Hash8 where
  a : Nat
  b : Nat
  c : Nat
  d : Nat
  e : Nat
  f : Nat
  g : Nat
  h : Nat
deriving DecidableEq, Repr

/-- One SHA-256 compression round; `kw` is the round constant paired with
the schedule word. -/
def sha256Round (st : Hash8) (kw : Nat × Nat) : Hash8 :=
  let ch := (st.e &&& st.f) ^^^ ((4294967295 ^^^ st.e) &&& st.g)
  let maj := (st.a &&& st.b) ^^^ (st.a &&& st.c) ^^^ (st.b &&& st.c)
  let t1 := w32 (st.h + bigSig1 st.e + ch + kw.1 + kw.2)
  let t2 := w32 (bigSig0 st.a + maj)
  { a := w32 (t1 + t2), b := st.a, c := st.b, d := st.c,
    e := w32 (st.d + t1), f := st.e, g := st.f, h := st.g }

/-- Compress one 64-byte block into the running hash state. -/
def compressBlock (hs : Hash8) (block : List Nat) : Hash8 :=
  let ws := extendWords (bytesToWords block)
  let st := (sha256K.zip ws).foldl sha256Round hs
  { a := w32 (hs.a + st.a), b := w32 (hs.b + st.b),
    c := w32 (hs.c + st.c), d := w32 (hs.d + st.d),
    e := w32 (hs.e + st.e), f := w32 (hs.f + st.f),
    g := w32 (hs.g + st.g), h := w32 (hs.h + st.h) }

def sha256H0 : Hash8 :=
  { a := 1779033703, b := 3144134277, c := 1013904242, d := 2773480762,
    e := 1359893119, f := 2600822924, g := 528734635, h := 1541459225 }

/-- SHA-256 of a byte list (models Node's `crypto.createHash('sha256')`,
an external builtin implementing FIPS 180-4), as 32 digest bytes. -/
def sha256 (msg : List Nat) : List Nat :=
  let fin := (chunks64 (padMessage msg)).foldl compressBlock sha256H0
  beBytes 4 fin.a ++ beBytes 4 fin.b ++ beBytes 4 fin.c ++ beBytes 4 fin.d ++
  beBytes 4 fin.e ++ beBytes 4 fin.f ++ beBytes 4 fin.g ++ beBytes 4 fin.h

/-- Character `n` of the standard (RFC 4648) base64 alphabet, the encoding
Node's `digest('base64')` uses; note it contains both `+` and `/`. -/
def b64char (n : Nat) : Char :=
  "ABCDEFGHIJKLMNOPQRSTUVWXYZabcdefghijklmnopqrstuvwxyz0123456789+/".data.getD n '='

/-- Standard base64 encoding of a byte list, with `=` padding. -/
def b64encode : List Nat → List Char
  | b1 :: b2 :: b3 :: rest =>
    b64char (b1 / 4) :: b64char (b1 % 4 * 16 + b2 / 16) ::
    b64char (b2 % 16 * 4 + b3 / 64) :: b64char (b3 % 64) :: b64encode rest
  | [b1, b2] =>
    [b64char (b1 / 4), b64char (b1 % 4 * 16 + b2 / 16), b64char (b2 % 16 * 4), '=']
  | [b1] =>
    [b64char (b1 / 4), b64char (b1 % 4 * 16), '=', '=']
  | [] => []

/-- UTF-8 bytes of a string; every string hashed in this development is
ASCII, where the UTF-8 bytes coincide with the code points. -/
def strBytes (s : String) : List Nat := s.data.map Char.toNat

/-- The cache key of the source: `hash.update(url); hash.update(w);
hash.update(q); hash.update(mediaType); hash.digest('base64')` — the
base64 of the SHA-256 of the concatenated parameter strings. -/
def cacheKey (url w q mediaType : String) : String :=
  String.mk (b64encode (sha256 (strBytes (hashInput url w q mediaType))))

/-- The part of the upstream `fetch` response the handler inspects. -/
structure FetchResponse where
  ok : Bool
  status : Nat
  hasBody : Bool
deriving DecidableEq, Repr

/-- The external world one request observes: whether `fileExists` reports
a cache entry for the derived key, and what the upstream fetch returns. -/
structure World where
  cacheExists : Bool
  fetch : FetchResponse
deriving DecidableEq, Repr

/-- The configuration of the sharp transformer the source builds:
`sharp().resize(width)` always, and `.webp(\x7b quality \x7d)` exactly when
the negotiated media type is WEBP (the AVIF branch of the source is
empty). Any deterministic codec produces the same output bytes from the
same source bytes and the same configuration. -/
structure TransformConfig where
  width : Int
  webpQuality : Option Int
deriving DecidableEq, Repr

/-- How one request ends. -/
inductive Outcome where
  | badRequest (msg : String)
  | servedFromCache (key : String)
  | threw (msg : String)
  | streamed (cfg : TransformConfig) (key : String)
deriving DecidableEq, Repr

/-- Which externally visible I/O steps the handler performed:
the `fileExists` cache probe, the upstream fetch, and opening the
cache-file write stream. -/
structure Effects where
  checkedCache : Bool
  didFetch : Bool
  openedCacheWrite : Bool
deriving DecidableEq, Repr

def noEffects : Effects :=
  { checkedCache := false, didFetch := false, openedCacheWrite := false }

/-- The `imageOptimizer` handler, transcribed from the source: validate
(in source order), derive the cache key, probe the cache (`fileExists`),
serve a hit from the cache file, otherwise build the transformer
configuration, fetch the absolute URL, throw on a non-ok status or a
missing body, and only then open the cache write stream and tee the
transformed stream into it and the response. `mediaType` is the result of
`accept.mediaType(req.headers.accept, MEDIA_TYPES)`, computed by the
external `@hapi/accept` collaborator and therefore taken as an input. -/
def imageOptimizer (sizes : List Int) (domains : List String)
    (url w q : QueryVal) (host : Option String) (mediaType : String)
    (world : World) : Outcome × Effects :=
  match validate sizes domains url w q host with
  | .error msg => (.badRequest msg, noEffects)
  | .ok v =>
    let key := cacheKey v.url v.w v.q mediaType
    if world.cacheExists then
      (.servedFromCache key,
       { checkedCache := true, didFetch := false, openedCacheWrite := false })
    else
      let cfg : TransformConfig :=
        { width := v.width,
          webpQuality := if mediaType = WEBP then some v.quality else none }
      if world.fetch.ok = false then
        (.threw ("Unexpected status " ++ toString world.fetch.status ++
                 " from " ++ v.absoluteUrl.href),
         { checkedCache := true, didFetch := true, openedCacheWrite := false })
      else if world.fetch.hasBody = false then
        (.threw ("No body from " ++ v.absoluteUrl.href),
         { checkedCache := true, didFetch := true, openedCacheWrite := false })
      else
        (.streamed cfg key,
         { checkedCache := true, didFetch := true, openedCacheWrite := true })

/-! ### Inversion and propagation lemmas about the validator -/

theorem checkParam_ok {r a : String} {v : QueryVal} {s : String}
    (h : checkParam r a v = .ok s) : v = .str s := by
  cases v with
  | missing => simp [checkParam] at h
  | arr l => simp [checkParam] at h
  | str t =>
    by_cases ht : t = ""
    · simp [checkParam, ht] at h
    · simp only [checkParam, if_neg ht, Except.ok.injEq] at h
      rw [h]

theorem checkUrl_ok_str {domains : List String} {url : QueryVal}
    {host : Option String} {s : String} {u : ParsedURL}
    (h : checkUrl domains url host = .ok (s, u)) : url = .str s := by
  unfold checkUrl at h
  cases hcp : checkParam msgUrlRequired msgUrlArray url with
  | error e => rw [hcp] at h; simp at h
  | ok urlStr =>
    simp only [hcp] at h
    have hv := checkParam_ok hcp
    cases hp : parseURL urlStr with
    | some pu =>
      simp only [hp] at h
      by_cases hd : domains ≠ [] ∧ pu.hostname ∉ domains
      · simp [hd] at h
      · simp only [if_neg hd, Except.ok.injEq, Prod.mk.injEq] at h
        rw [hv, h.1]
    | none =>
      simp only [hp] at h
      cases hr : resolveRelative urlStr (host.getD "undefined") with
      | some ru =>
        simp only [hr, Except.ok.injEq, Prod.mk.injEq] at h
        rw [hv, h.1]
      | none => simp only [hr] at h; simp at h

theorem validate_error_url {sizes : List Int} {domains : List String}
    {url w q : QueryVal} {host : Option String} {e : String}
    (hu : checkUrl domains url host = .error e) :
    validate sizes domains url w q host = .error e := by
  simp only [validate, hu]

theorem validate_error_w {sizes : List Int} {domains : List String}
    {url w q : QueryVal} {host : Option String} {us : String}
    {au : ParsedURL} {e : String}
    (hu : checkUrl domains url host = .ok (us, au))
    (hw : checkParam msgWRequired msgWArray w = .error e) :
    validate sizes domains url w q host = .error e := by
  simp only [validate, hu, hw]

theorem validate_error_q {sizes : List Int} {domains : List String}
    {url w q : QueryVal} {host : Option String} {us ws : String}
    {au : ParsedURL} {e : String}
    (hu : checkUrl domains url host = .ok (us, au))
    (hw : checkParam msgWRequired msgWArray w = .ok ws)
    (hq : checkParam msgQRequired msgQArray q = .error e) :
    validate sizes domains url w q host = .error e := by
  simp only [validate, hu, hw, hq]

theorem validate_error_width {sizes : List Int} {domains : List String}
    {url w q : QueryVal} {host : Option String} {us ws qs : String}
    {au : ParsedURL} {e : String}
    (hu : checkUrl domains url host = .ok (us, au))
    (hw : checkParam msgWRequired msgWArray w = .ok ws)
    (hq : checkParam msgQRequired msgQArray q = .ok qs)
    (hwd : checkWidth sizes ws = .error e) :
    validate sizes domains url w q host = .error e := by
  simp only [validate, hu, hw, hq, hwd]

theorem validate_error_quality {sizes : List Int} {domains : List String}
    {url w q : QueryVal} {host : Option String} {us ws qs : String}
    {au : ParsedURL} {wd : Int} {e : String}
    (hu : checkUrl domains url host = .ok (us, au))
    (hw : checkParam msgWRequired msgWArray w = .ok ws)
    (hq : checkParam msgQRequired msgQArray q = .ok qs)
    (hwd : checkWidth sizes ws = .ok wd)
    (hql : checkQuality qs = .error e) :
    validate sizes domains url w q host = .error e := by
  simp only [validate, hu, hw, hq, hwd, hql]

theorem validate_ok_build {sizes : List Int} {domains : List String}
    {url w q : QueryVal} {host : Option String} {us ws qs : String}
    {au : ParsedURL} {wd ql : Int}
    (hu : checkUrl domains url host = .ok (us, au))
    (hw : checkParam msgWRequired msgWArray w = .ok ws)
    (hq : checkParam msgQRequired msgQArray q = .ok qs)
    (hwd : checkWidth sizes ws = .ok wd)
    (hql : checkQuality qs = .ok ql) :
    validate sizes domains url w q host =
      .ok { url := us, w := ws, q := qs, absoluteUrl := au,
            width := wd, quality := ql } := by
  simp only [validate, hu, hw, hq, hwd, hql]

theorem validate_ok_parts {sizes : List Int} {domains : List String}
    {url w q : QueryVal} {host : Option String} {v : Validated}
    (h : validate sizes domains url w q host = .ok v) :
    checkUrl domains url host = .ok (v.url, v.absoluteUrl) ∧
    checkParam msgWRequired msgWArray w = .ok v.w ∧
    checkParam msgQRequired msgQArray q = .ok v.q ∧
    checkWidth sizes v.w = .ok v.width ∧
    checkQuality v.q = .ok v.quality := by
  unfold validate at h
  split at h <;> try simp at h
  next us au hu =>
  split at h <;> try simp at h
  next ws hw =>
  split at h <;> try simp at h
  next qs hq =>
  split at h <;> try simp at h
  next wd hwd =>
  split at h <;> try simp at h
  next ql hql =>
  subst h
  exact ⟨hu, hw, hq, hwd, hql⟩

/-! ### Lemmas about the orchestrator -/

theorem imageOptimizer_badRequest {sizes : List Int} {domains : List String}
    {url w q : QueryVal} {host : Option String} {mediaType : String}
    {world : World} {msg : String}
    (h : validate sizes domains url w q host = .error msg) :
    imageOptimizer sizes domains url w q host mediaType world =
      (.badRequest msg, noEffects) := by
  simp only [imageOptimizer, h]

theorem imageOptimizer_cacheHit {sizes : List Int} {domains : List String}
    {url w q : QueryVal} {host : Option String} {mediaType : String}
    {world : World} {v : Validated}
    (hv : validate sizes domains url w q host = .ok v)
    (hc : world.cacheExists = true) :
    imageOptimizer sizes domains url w q host mediaType world =
      (.servedFromCache (cacheKey v.url v.w v.q mediaType),
       { checkedCache := true, didFetch := false, openedCacheWrite := false }) := by
  simp only [imageOptimizer, hv, hc, if_true]

theorem imageOptimizer_fetch_fail {sizes : List Int} {domains : List String}
    {url w q : QueryVal} {host : Option String} {mediaType : String}
    {world : World} {v : Validated}
    (hv : validate sizes domains url w q host = .ok v)
    (hc : world.cacheExists = false)
    (hf : world.fetch.ok = false) :
    imageOptimizer sizes domains url w q host mediaType world =
      (.threw ("Unexpected status " ++ toString world.fetch.status ++
               " from " ++ v.absoluteUrl.href),
       { checkedCache := true, didFetch := true, openedCacheWrite := false }) := by
  simp only [imageOptimizer, hv, hc, hf]
  simp

theorem imageOptimizer_no_body {sizes : List Int} {domains : List String}
    {url w q : QueryVal} {host : Option String} {mediaType : String}
    {world : World} {v : Validated}
    (hv : validate sizes domains url w q host = .ok v)
    (hc : world.cacheExists = false)
    (hf : world.fetch.ok = true)
    (hb : world.fetch.hasBody = false) :
    imageOptimizer sizes domains url w q host mediaType world =
      (.threw ("No body from " ++ v.absoluteUrl.href),
       { checkedCache := true, didFetch := true, openedCacheWrite := false }) := by
  simp only [imageOptimizer, hv, hc, hf, hb]
  simp

theorem imageOptimizer_streamed {sizes : List Int} {domains : List String}
    {url w q : QueryVal} {host : Option String} {mediaType : String}
    {world : World} {v : Validated}
    (hv : validate sizes domains url w q host = .ok v)
    (hc : world.cacheExists = false)
    (hf : world.fetch.ok = true)
    (hb : world.fetch.hasBody = true) :
    imageOptimizer sizes domains url w q host mediaType world =
      (.streamed { width := v.width,
                   webpQuality := if mediaType = WEBP then some v.quality else none }
                 (cacheKey v.url v.w v.q mediaType),
       { checkedCache := true, didFetch := true, openedCacheWrite := true }) := by
  simp only [imageOptimizer, hv, hc, hf, hb]
  simp

/-! ### String facts used for key distinctness -/

theorem String.data_inj {x y : String} (h : x.data = y.data) : x = y := by
  cases x; cases y; exact congrArg String.mk h

/-- Equal hash inputs with a common `url ++ w` prefix and a common media
type suffix force equal `q` components: string append cancels on both
sides. -/
theorem hashInput_cancel_q {u w q1 q2 m : String}
    (h : hashInput u w q1 m = hashInput u w q2 m) : q1 = q2 := by
  have hd : u.data ++ (w.data ++ (q1.data ++ m.data)) =
      u.data ++ (w.data ++ (q2.data ++ m.data)) := by
    have := congrArg String.data h
    simpa [hashInput, String.data_append, List.append_assoc] using this
  have h1 := List.append_cancel_left hd
  have h2 := List.append_cancel_left h1
  exact String.data_inj (List.append_cancel_right h2)

/-- With componentwise equal lengths for the first three components, the
separator-free concatenation `url ++ w ++ q ++ mediaType` is injective. -/
theorem hashInput_inj_of_lengths {u1 w1 q1 m1 u2 w2 q2 m2 : String}
    (hu : u1.length = u2.length) (hw : w1.length = w2.length)
    (hq : q1.length = q2.length)
    (h : hashInput u1 w1 q1 m1 = hashInput u2 w2 q2 m2) :
    u1 = u2 ∧ w1 = w2 ∧ q1 = q2 ∧ m1 = m2 := by
  have hd : u1.data ++ (w1.data ++ (q1.data ++ m1.data)) =
      u2.data ++ (w2.data ++ (q2.data ++ m2.data)) := by
    have := congrArg String.data h
    simpa [hashInput, String.data_append, List.append_assoc] using this
  have h1 := List.append_inj hd hu
  have h2 := List.append_inj h1.2 hw
  have h3 := List.append_inj h2.2 hq
  exact ⟨String.data_inj h1.1, String.data_inj h2.1,
         String.data_inj h3.1, String.data_inj h3.2⟩

/-! ### Claim theorems -/

/-- Claim C1, counterexample: with the non-empty allow-list
`["good.com"]`, the relative url `/x.jpg` sent with Host `evil.com`
resolves to hostname `evil.com`, which is not in the list — yet the
handler does not reject with the DomainNotAllowed message and the
upstream fetch does occur, because the source performs the domain check
only inside the successful-absolute-parse branch. -/
theorem C1_counterexample :
    (resolveRelative "/x.jpg" "evil.com").map ParsedURL.hostname = some "evil.com" ∧
    "evil.com" ∉ ["good.com"] ∧
    (imageOptimizer [] ["good.com"] (.str "/x.jpg") (.str "100") (.str "50")
        (some "evil.com") ""
        { cacheExists := false,
          fetch := { ok := true, status := 200, hasBody := true } }).2.didFetch
      = true ∧
    (imageOptimizer [] ["good.com"] (.str "/x.jpg") (.str "100") (.str "50")
        (some "evil.com") ""
        { cacheExists := false,
          fetch := { ok := true, status := 200, hasBody := true } }).1
      ≠ Outcome.badRequest msgUrlNotAllowed := by
  refine ⟨by decide, by decide, by decide, by decide⟩

/-- Claim C1, amended: for every request policy with a non-empty domain
allow-list and every request whose url parameter is supplied as an
absolute URL whose hostname is not in the allow-list, the validator
rejects the request with the 400 DomainNotAllowed message and no fetch
and no cache I/O occurs. (Relative urls resolved against the Host header
bypass the domain check entirely, as the counterexample shows.) -/
theorem C1_theorem {domains : List String} {urlStr : String} {u : ParsedURL}
    (sizes : List Int) (w q : QueryVal) (host : Option String)
    (mediaType : String) (world : World)
    (hp : parseURL urlStr = some u)
    (hd : domains ≠ []) (hm : u.hostname ∉ domains) :
    imageOptimizer sizes domains (.str urlStr) w q host mediaType world =
      (.badRequest msgUrlNotAllowed, noEffects) := by
  have h0 : parseURL "" = none := by decide
  have hne : urlStr ≠ "" := by
    intro h; rw [h, h0] at hp; cases hp
  have hcp : checkParam msgUrlRequired msgUrlArray (.str urlStr) = .ok urlStr := by
    simp [checkParam, hne]
  have hu : checkUrl domains (.str urlStr) host = .error msgUrlNotAllowed := by
    simp only [checkUrl, hcp, hp]
    simp [hd, hm]
  exact imageOptimizer_badRequest (validate_error_url hu)

/-- Witness for C1 at a concrete input: `https://evil.com/x.jpg` against
the allow-list `["good.com"]` is rejected with the DomainNotAllowed
message and no effect is performed. -/
theorem C1_witness :
    imageOptimizer [] ["good.com"] (.str "https://evil.com/x.jpg") (.str "100")
        (.str "50") (some "h") ""
        { cacheExists := false,
          fetch := { ok := true, status := 200, hasBody := true } } =
      (.badRequest msgUrlNotAllowed, noEffects) :=
  @ C1_theorem ["good.com"] "https://evil.com/x.jpg"
    { scheme := "https", hostname := "evil.com", path := "/x.jpg" }
    [] (.str "100") (.str "50") (some "h") ""
    { cacheExists := false,
      fetch := { ok := true, status := 200, hasBody := true } }
    (by decide) (by decide) (by decide)

/-- Claim C2, counterexample: the same relative url `/a.jpg` sent with
Host `a.com` and Host `b.com` resolves to two different absolute URLs,
yet the two requests produce identical handler results — in particular
the identical cache key — because the key hashes the raw url parameter,
not the resolved URL. -/
theorem C2_counterexample :
    (validate [] [] (.str "/a.jpg") (.str "64") (.str "50") (some "a.com")).map
        (fun v => v.absoluteUrl.href) = .ok "https://a.com/a.jpg" ∧
    (validate [] [] (.str "/a.jpg") (.str "64") (.str "50") (some "b.com")).map
        (fun v => v.absoluteUrl.href) = .ok "https://b.com/a.jpg" ∧
    imageOptimizer [] [] (.str "/a.jpg") (.str "64") (.str "50") (some "a.com")
        WEBP { cacheExists := false,
               fetch := { ok := true, status := 200, hasBody := true } } =
      imageOptimizer [] [] (.str "/a.jpg") (.str "64") (.str "50") (some "b.com")
        WEBP { cacheExists := false,
               fetch := { ok := true, status := 200, hasBody := true } } := by
  refine ⟨by decide, by decide, by decide⟩

/-- Claim C2, amended: two requests with identical raw url, w and q
parameters and media type derive the identical cache key whatever their
Host headers are — the key is a function of the raw parameter strings
only, so requests whose resolved absolute URLs differ are NOT
distinguished. -/
theorem C2_theorem {sizes : List Int} {domains : List String}
    {url w q : QueryVal} {host1 host2 : Option String} {v1 v2 : Validated}
    (mediaType : String)
    (h1 : validate sizes domains url w q host1 = .ok v1)
    (h2 : validate sizes domains url w q host2 = .ok v2) :
    cacheKey v1.url v1.w v1.q mediaType = cacheKey v2.url v2.w v2.q mediaType := by
  obtain ⟨hu1, hw1, hq1, _, _⟩ := validate_ok_parts h1
  obtain ⟨hu2, hw2, hq2, _, _⟩ := validate_ok_parts h2
  have eu : v1.url = v2.url := by
    have a1 := checkUrl_ok_str hu1
    have a2 := checkUrl_ok_str hu2
    rw [a1] at a2; injection a2
  have ew : v1.w = v2.w := by
    have a1 := checkParam_ok hw1
    have a2 := checkParam_ok hw2
    rw [a1] at a2; injection a2
  have eq2 : v1.q = v2.q := by
    have a1 := checkParam_ok hq1
    have a2 := checkParam_ok hq2
    rw [a1] at a2; injection a2
  rw [eu, ew, eq2]

/-- Witness for C2 at a concrete input: the relative url `/a.jpg` with
Hosts `a.com` and `b.com` yields the same key. -/
theorem C2_witness :
    cacheKey "/a.jpg" "64" "50" WEBP = cacheKey "/a.jpg" "64" "50" WEBP :=
  @ C2_theorem [] [] (.str "/a.jpg") (.str "64") (.str "50")
    (some "a.com") (some "b.com")
    { url := "/a.jpg", w := "64", q := "50",
      absoluteUrl := { scheme := "https", hostname := "a.com", path := "/a.jpg" },
      width := 64, quality := 50 }
    { url := "/a.jpg", w := "64", q := "50",
      absoluteUrl := { scheme := "https", hostname := "b.com", path := "/a.jpg" },
      width := 64, quality := 50 }
    WEBP (by decide) (by decide)

/-- Claim C3, counterexample: the deriver is not injective on distinct
tuples even under a collision-free hash: the distinct tuples
`("/a","11","1")` and `("/a1","1","1")` (same media type) concatenate to
the same byte string `/a111...`, so their keys are identical. -/
theorem C3_counterexample :
    ("/a", "11", "1", WEBP) ≠ ("/a1", "1", "1", WEBP) ∧
    hashInput "/a" "11" "1" WEBP = hashInput "/a1" "1" "1" WEBP ∧
    cacheKey "/a" "11" "1" WEBP = cacheKey "/a1" "1" "1" WEBP := by
  refine ⟨by decide, rfl, rfl⟩

/-- Claim C3, amended: the deriver is a deterministic function of the
tuple (identical tuples always yield the identical key), and — under the
collision-free modelling of the hash, i.e. at the level of the hashed
byte string — two tuples whose url, w and q components have pairwise
equal lengths yield the same key only if the tuples are equal. Without
the length agreement, distinct tuples may collide because the hash input
is the separator-free concatenation of the four strings. -/
theorem C3_theorem (u1 w1 q1 m1 u2 w2 q2 m2 : String) :
    (u1 = u2 → w1 = w2 → q1 = q2 → m1 = m2 →
      cacheKey u1 w1 q1 m1 = cacheKey u2 w2 q2 m2) ∧
    (u1.length = u2.length → w1.length = w2.length → q1.length = q2.length →
      hashInput u1 w1 q1 m1 = hashInput u2 w2 q2 m2 →
      u1 = u2 ∧ w1 = w2 ∧ q1 = q2 ∧ m1 = m2) := by
  constructor
  · intro a b c d; rw [a, b, c, d]
  · intro l1 l2 l3 h; exact hashInput_inj_of_lengths l1 l2 l3 h

/-- Witness for C3: determinism at a concrete tuple, and the
length-conditioned injectivity applied at a concrete pair. -/
theorem C3_witness :
    cacheKey "https://example.com/a.jpg" "640" "75" WEBP =
      cacheKey "https://example.com/a.jpg" "640" "75" WEBP ∧
    ("/a" = "/a" ∧ "11" = "11" ∧ "1" = "1" ∧ WEBP = WEBP) :=
  ⟨( C3_theorem "https://example.com/a.jpg" "640" "75" WEBP
      "https://example.com/a.jpg" "640" "75" WEBP).1 rfl rfl rfl rfl,
   ( C3_theorem "/a" "11" "1" WEBP "/a" "11" "1" WEBP).2 rfl rfl rfl rfl⟩

/-- Claim C4: the request `url=https://example.com/a.jpg, w=640, q=2`
with WEBP negotiated passes validation, misses the cache, streams — and
its base64 cache key contains the character `/` twice, so the cache file
path `join(distDir, 'cache', 'images', cacheKey)` is a nested path, not a
file directly under the cache/images directory. Standard base64 is not
filesystem-path-safe. -/
theorem C4_theorem :
    (imageOptimizer [] [] (.str "https://example.com/a.jpg") (.str "640")
        (.str "2") (some "h") WEBP
        { cacheExists := false,
          fetch := { ok := true, status := 200, hasBody := true } }).1 =
      .streamed { width := 640, webpQuality := some 2 }
        "kEwrNXkAJnyjJ35UsW4zLBzeg87v3+j984z/GF/UdBA=" ∧
    ("kEwrNXkAJnyjJ35UsW4zLBzeg87v3+j984z/GF/UdBA=".data.contains '/') = true := by
  refine ⟨by decide, by decide⟩

/-- Claim C5: the width string `-1` is NOT rejected: `parseInt("-1")` is
`-1`, which is neither falsy nor `NaN`, so with an empty width allow-list
validation succeeds with width `-1` and the handler proceeds to fetch
and transform — contradicting the validator's own message text
`"w" parameter (width) must be a number greater than 0`. -/
theorem C5_theorem :
    jsParseInt "-1" = some (-1) ∧
    validate [] [] (.str "https://example.com/a.jpg") (.str "-1") (.str "50")
        (some "h") =
      .ok { url := "https://example.com/a.jpg", w := "-1", q := "50",
            absoluteUrl := { scheme := "https", hostname := "example.com",
                             path := "/a.jpg" },
            width := -1, quality := 50 } ∧
    (imageOptimizer [] [] (.str "https://example.com/a.jpg") (.str "-1")
        (.str "50") (some "h") ""
        { cacheExists := false,
          fetch := { ok := true, status := 200, hasBody := true } }).1 ≠
      .badRequest msgWInvalid := by
  refine ⟨by decide, by decide, by decide⟩

/-- Claim C6, counterexample: a request with the non-numeric width `abc`
and a missing q parameter is rejected with the MissingQuality message,
not the InvalidWidth message — the source checks q's presence before it
parses w numerically. -/
theorem C6_counterexample :
    jsParseInt "abc" = none ∧
    imageOptimizer [] [] (.str "https://example.com/a.jpg") (.str "abc")
        .missing (some "h") ""
        { cacheExists := false,
          fetch := { ok := true, status := 200, hasBody := true } } =
      (.badRequest msgQRequired, noEffects) ∧
    msgQRequired ≠ msgWInvalid := by
  refine ⟨by decide, by decide, by decide⟩

/-- Claim C6, amended: validation short-circuits on the first failure in
the code's order — url presence, url arity, url parse and domain check, w
presence, w arity, q presence, q arity, w numeric parse, w allow-list, q
numeric parse and bounds. In particular, whenever the url checks pass and
w is present as a single non-empty string (numeric or not), a missing q
is rejected with the MissingQuality message before the width string is
ever parsed. -/
theorem C6_theorem {domains : List String} {url : QueryVal}
    {host : Option String} {us : String} {au : ParsedURL}
    (sizes : List Int) (wStr : String) (mediaType : String) (world : World)
    (hu : checkUrl domains url host = .ok (us, au)) (hw : wStr ≠ "") :
    imageOptimizer sizes domains url (.str wStr) .missing host mediaType world =
      (.badRequest msgQRequired, noEffects) := by
  have hwp : checkParam msgWRequired msgWArray (.str wStr) = .ok wStr := by
    simp [checkParam, hw]
  exact imageOptimizer_badRequest (validate_error_q hu hwp rfl)

/-- Witness for C6 at the concrete input of the counterexample shape. -/
theorem C6_witness :
    imageOptimizer [] [] (.str "https://example.com/a.jpg") (.str "abc")
        .missing (some "h") ""
        { cacheExists := false,
          fetch := { ok := true, status := 200, hasBody := true } } =
      (.badRequest msgQRequired, noEffects) :=
  @ C6_theorem [] (.str "https://example.com/a.jpg") (some "h")
    "https://example.com/a.jpg"
    { scheme := "https", hostname := "example.com", path := "/a.jpg" }
    [] "abc" ""
    { cacheExists := false,
      fetch := { ok := true, status := 200, hasBody := true } }
    (by decide) (by decide)

/-- Claim C7: a request missing url is answered 400 with exactly
`"url" parameter is required`; a request passing the url checks but
missing w is answered 400 with exactly `"w" parameter (width) is
required`; one passing url and w checks but missing q is answered 400
with exactly `"q" parameter (quality) is required` — and in each case no
effect is performed: no cache probe, no fetch, no cache write. -/
theorem C7_theorem (sizes : List Int) (domains : List String)
    (url w q : QueryVal) (host : Option String) (mediaType : String)
    (world : World) :
    (imageOptimizer sizes domains .missing w q host mediaType world =
      (.badRequest msgUrlRequired, noEffects)) ∧
    (∀ us au, checkUrl domains url host = .ok (us, au) →
      imageOptimizer sizes domains url .missing q host mediaType world =
        (.badRequest msgWRequired, noEffects)) ∧
    (∀ us au ws, checkUrl domains url host = .ok (us, au) →
      checkParam msgWRequired msgWArray w = .ok ws →
      imageOptimizer sizes domains url w .missing host mediaType world =
        (.badRequest msgQRequired, noEffects)) := by
  refine ⟨?_, ?_, ?_⟩
  · exact imageOptimizer_badRequest (validate_error_url rfl)
  · intro us au hu
    exact imageOptimizer_badRequest (validate_error_w hu rfl)
  · intro us au ws hu hw
    exact imageOptimizer_badRequest (validate_error_q hu hw rfl)

/-- Witness for C7 at concrete inputs: each of the three missing
parameters yields its exact message with no effects. -/
theorem C7_witness :
    (imageOptimizer [] [] .missing (.str "640") (.str "75") (some "h") ""
        { cacheExists := false,
          fetch := { ok := true, status := 200, hasBody := true } } =
      (.badRequest msgUrlRequired, noEffects)) ∧
    (imageOptimizer [] [] (.str "https://example.com/a.jpg") .missing
        (.str "75") (some "h") ""
        { cacheExists := false,
          fetch := { ok := true, status := 200, hasBody := true } } =
      (.badRequest msgWRequired, noEffects)) ∧
    (imageOptimizer [] [] (.str "https://example.com/a.jpg") (.str "640")
        .missing (some "h") ""
        { cacheExists := false,
          fetch := { ok := true, status := 200, hasBody := true } } =
      (.badRequest msgQRequired, noEffects)) :=
  ⟨( C7_theorem [] [] (.str "https://example.com/a.jpg") (.str "640")
      (.str "75") (some "h") ""
      { cacheExists := false,
        fetch := { ok := true, status := 200, hasBody := true } }).1,
   ( C7_theorem [] [] (.str "https://example.com/a.jpg") (.str "640")
      (.str "75") (some "h") ""
      { cacheExists := false,
        fetch := { ok := true, status := 200, hasBody := true } }).2.1
     "https://example.com/a.jpg"
     { scheme := "https", hostname := "example.com", path := "/a.jpg" }
     (by decide),
   ( C7_theorem [] [] (.str "https://example.com/a.jpg") (.str "640")
      (.str "75") (some "h") ""
      { cacheExists := false,
        fetch := { ok := true, status := 200, hasBody := true } }).2.2
     "https://example.com/a.jpg"
     { scheme := "https", hostname := "example.com", path := "/a.jpg" }
     "640" (by decide) (by decide)⟩

/-- Claim C8: for any request whose url and width checks pass, quality
validation accepts exactly the integers in `[1,100]` at the boundaries:
`q=0` and `q=101` are rejected with the InvalidQuality message, while
`q=1` and `q=100` validate successfully with those quality values. -/
theorem C8_theorem {domains : List String} {url w : QueryVal}
    {host : Option String} {us ws : String} {au : ParsedURL} {wd : Int}
    (sizes : List Int)
    (hu : checkUrl domains url host = .ok (us, au))
    (hw : checkParam msgWRequired msgWArray w = .ok ws)
    (hwd : checkWidth sizes ws = .ok wd) :
    validate sizes domains url w (.str "0") host = .error msgQInvalid ∧
    validate sizes domains url w (.str "101") host = .error msgQInvalid ∧
    validate sizes domains url w (.str "1") host =
      .ok { url := us, w := ws, q := "1", absoluteUrl := au,
            width := wd, quality := 1 } ∧
    validate sizes domains url w (.str "100") host =
      .ok { url := us, w := ws, q := "100", absoluteUrl := au,
            width := wd, quality := 100 } := by
  refine ⟨?_, ?_, ?_, ?_⟩
  · exact validate_error_quality hu hw
      (show checkParam msgQRequired msgQArray (.str "0") = .ok "0" by decide)
      hwd (show checkQuality "0" = .error msgQInvalid by decide)
  · exact validate_error_quality hu hw
      (show checkParam msgQRequired msgQArray (.str "101") = .ok "101" by decide)
      hwd (show checkQuality "101" = .error msgQInvalid by decide)
  · exact validate_ok_build hu hw
      (show checkParam msgQRequired msgQArray (.str "1") = .ok "1" by decide)
      hwd (show checkQuality "1" = .ok 1 by decide)
  · exact validate_ok_build hu hw
      (show checkParam msgQRequired msgQArray (.str "100") = .ok "100" by decide)
      hwd (show checkQuality "100" = .ok 100 by decide)

/-- Witness for C8 at a concrete request prefix. -/
theorem C8_witness :
    validate [] [] (.str "https://example.com/a.jpg") (.str "640") (.str "0")
        (some "h") = .error msgQInvalid ∧
    validate [] [] (.str "https://example.com/a.jpg") (.str "640") (.str "101")
        (some "h") = .error msgQInvalid ∧
    validate [] [] (.str "https://example.com/a.jpg") (.str "640") (.str "1")
        (some "h") =
      .ok { url := "https://example.com/a.jpg", w := "640", q := "1",
            absoluteUrl := { scheme := "https", hostname := "example.com",
                             path := "/a.jpg" },
            width := 640, quality := 1 } ∧
    validate [] [] (.str "https://example.com/a.jpg") (.str "640") (.str "100")
        (some "h") =
      .ok { url := "https://example.com/a.jpg", w := "640", q := "100",
            absoluteUrl := { scheme := "https", hostname := "example.com",
                             path := "/a.jpg" },
            width := 640, quality := 100 } :=
  @ C8_theorem [] (.str "https://example.com/a.jpg") (.str "640") (some "h")
    "https://example.com/a.jpg" "640"
    { scheme := "https", hostname := "example.com", path := "/a.jpg" } 640
    [] (by decide) (by decide) (by decide)

/-- Claim C9: for every request that passes validation and misses the
cache, a fetch returning a non-ok status makes the handler throw with the
exact message naming the status and the source URL, and a fetch with no
body makes it throw with the exact message naming the source URL; in
both cases the cache write stream is never opened (no cache file is
created), the write being opened only after both checks pass. -/
theorem C9_theorem {sizes : List Int} {domains : List String}
    {url w q : QueryVal} {host : Option String} {v : Validated}
    (mediaType : String) (fr : FetchResponse)
    (hv : validate sizes domains url w q host = .ok v) :
    (fr.ok = false →
      imageOptimizer sizes domains url w q host mediaType
          { cacheExists := false, fetch := fr } =
        (.threw ("Unexpected status " ++ toString fr.status ++ " from " ++
                 v.absoluteUrl.href),
         { checkedCache := true, didFetch := true, openedCacheWrite := false })) ∧
    (fr.ok = true → fr.hasBody = false →
      imageOptimizer sizes domains url w q host mediaType
          { cacheExists := false, fetch := fr } =
        (.threw ("No body from " ++ v.absoluteUrl.href),
         { checkedCache := true, didFetch := true, openedCacheWrite := false })) := by
  constructor
  · intro hf
    exact imageOptimizer_fetch_fail hv rfl hf
  · intro hf hb
    exact imageOptimizer_no_body hv rfl hf hb

/-- Witness for C9: an upstream 404 and an ok-but-bodyless response, both
at a concrete validated request; no cache write is opened. -/
theorem C9_witness :
    imageOptimizer [] [] (.str "https://example.com/a.jpg") (.str "640")
        (.str "75") (some "h") ""
        { cacheExists := false,
          fetch := { ok := false, status := 404, hasBody := false } } =
      (.threw "Unexpected status 404 from https://example.com/a.jpg",
       { checkedCache := true, didFetch := true, openedCacheWrite := false }) ∧
    imageOptimizer [] [] (.str "https://example.com/a.jpg") (.str "640")
        (.str "75") (some "h") ""
        { cacheExists := false,
          fetch := { ok := true, status := 200, hasBody := false } } =
      (.threw "No body from https://example.com/a.jpg",
       { checkedCache := true, didFetch := true, openedCacheWrite := false }) :=
  ⟨( @ C9_theorem [] [] (.str "https://example.com/a.jpg") (.str "640")
      (.str "75") (some "h")
      { url := "https://example.com/a.jpg", w := "640", q := "75",
        absoluteUrl := { scheme := "https", hostname := "example.com",
                         path := "/a.jpg" },
        width := 640, quality := 75 }
      "" { ok := false, status := 404, hasBody := false } (by decide)).1 rfl,
   ( @ C9_theorem [] [] (.str "https://example.com/a.jpg") (.str "640")
      (.str "75") (some "h")
      { url := "https://example.com/a.jpg", w := "640", q := "75",
        absoluteUrl := { scheme := "https", hostname := "example.com",
                         path := "/a.jpg" },
        width := 640, quality := 75 }
      "" { ok := true, status := 200, hasBody := false } (by decide)).2 rfl rfl⟩

/-- Claim C10: when the negotiated media type is not WEBP, two
cache-missing requests that differ only in the (valid) quality string
stream with the identical transform configuration — resize to the same
width, no WEBP quality applied — so any deterministic codec produces
byte-identical output; yet the two hash inputs, hence the two cache keys
under the collision-free modelling of SHA-256, are distinct because the
key incorporates the raw q string. -/
theorem C10_theorem {sizes : List Int} {domains : List String}
    {urlStr wStr q1 q2 : String} {host : Option String} {v1 v2 : Validated}
    (mediaType : String) (world : World)
    (hmt : mediaType ≠ WEBP) (hq : q1 ≠ q2)
    (h1 : validate sizes domains (.str urlStr) (.str wStr) (.str q1) host = .ok v1)
    (h2 : validate sizes domains (.str urlStr) (.str wStr) (.str q2) host = .ok v2)
    (hc : world.cacheExists = false) (hf : world.fetch.ok = true)
    (hb : world.fetch.hasBody = true) :
    imageOptimizer sizes domains (.str urlStr) (.str wStr) (.str q1) host
        mediaType world =
      (.streamed { width := v1.width, webpQuality := none }
        (cacheKey urlStr wStr q1 mediaType),
       { checkedCache := true, didFetch := true, openedCacheWrite := true }) ∧
    imageOptimizer sizes domains (.str urlStr) (.str wStr) (.str q2) host
        mediaType world =
      (.streamed { width := v1.width, webpQuality := none }
        (cacheKey urlStr wStr q2 mediaType),
       { checkedCache := true, didFetch := true, openedCacheWrite := true }) ∧
    hashInput urlStr wStr q1 mediaType ≠ hashInput urlStr wStr q2 mediaType := by
  obtain ⟨hu1, hw1, hq1, hwd1, _⟩ := validate_ok_parts h1
  obtain ⟨hu2, hw2, hq2, hwd2, _⟩ := validate_ok_parts h2
  have eu1 : urlStr = v1.url := by
    have t := checkUrl_ok_str hu1; injection t
  have ew1 : wStr = v1.w := by
    have t := checkParam_ok hw1; injection t
  have eq1 : q1 = v1.q := by
    have t := checkParam_ok hq1; injection t
  have eu2 : urlStr = v2.url := by
    have t := checkUrl_ok_str hu2; injection t
  have ew2 : wStr = v2.w := by
    have t := checkParam_ok hw2; injection t
  have eq2 : q2 = v2.q := by
    have t := checkParam_ok hq2; injection t
  have wd12 : v1.width = v2.width := by
    rw [← ew1] at hwd1
    rw [← ew2] at hwd2
    rw [hwd1] at hwd2
    injection hwd2
  have s1 := @imageOptimizer_streamed sizes domains (.str urlStr) (.str wStr)
    (.str q1) host mediaType world v1 h1 hc hf hb
  have s2 := @imageOptimizer_streamed sizes domains (.str urlStr) (.str wStr)
    (.str q2) host mediaType world v2 h2 hc hf hb
  refine ⟨?_, ?_, ?_⟩
  · rw [s1]
    simp only [if_neg hmt]
    rw [← eu1, ← ew1, ← eq1]
  · rw [s2]
    simp only [if_neg hmt]
    rw [← eu2, ← ew2, ← eq2, wd12]
  · intro hcontra
    exact hq (hashInput_cancel_q hcontra)

/-- Witness for C10: qualities 75 and 80 with no media type negotiated:
identical transform configuration, distinct hash inputs. -/
theorem C10_witness :
    imageOptimizer [] [] (.str "https://example.com/a.jpg") (.str "640")
        (.str "75") (some "h") ""
        { cacheExists := false,
          fetch := { ok := true, status := 200, hasBody := true } } =
      (.streamed { width := 640, webpQuality := none }
        (cacheKey "https://example.com/a.jpg" "640" "75" ""),
       { checkedCache := true, didFetch := true, openedCacheWrite := true }) ∧
    imageOptimizer [] [] (.str "https://example.com/a.jpg") (.str "640")
        (.str "80") (some "h") ""
        { cacheExists := false,
          fetch := { ok := true, status := 200, hasBody := true } } =
      (.streamed { width := 640, webpQuality := none }
        (cacheKey "https://example.com/a.jpg" "640" "80" ""),
       { checkedCache := true, didFetch := true, openedCacheWrite := true }) ∧
    hashInput "https://example.com/a.jpg" "640" "75" "" ≠
      hashInput "https://example.com/a.jpg" "640" "80" "" :=
  @ C10_theorem [] [] "https://example.com/a.jpg" "640" "75" "80" (some "h")
    { url := "https://example.com/a.jpg", w := "640", q := "75",
      absoluteUrl := { scheme := "https", hostname := "example.com",
                       path := "/a.jpg" },
      width := 640, quality := 75 }
    { url := "https://example.com/a.jpg", w := "640", q := "80",
      absoluteUrl := { scheme := "https", hostname := "example.com",
                       path := "/a.jpg" },
      width := 640, quality := 80 }
    "" { cacheExists := false,
         fetch := { ok := true, status := 200, hasBody := true } }
    (by decide) (by decide) (by decide) (by decide) rfl rfl rfl

end ImageOptimizer

